import Mathlib

/-
Verification of the probe-classification helpers in the `network` package
(src/network/network.go).  The package consists of wire-protocol constants,
two request-classifying predicates (IsKubeletProbe, IsKProbe) and one
response handler (ServeKProbe).  We shallowly embed the Go code together
with the parts of the Go standard library it relies on:
`net/http.Header.Get/Set/Del` (which canonicalise the header name via
`textproto.CanonicalMIMEHeaderKey` and read only the first value of a
multi-valued header) and `net/http.Error` (which sets plain-text content
headers, writes the status code, and writes the message followed by a
newline, per `fmt.Fprintln`).
-/

namespace Network

/-! ## Time constants (Go `time.Duration` is an integer number of nanoseconds) -/

/-- Model of Go `time.Millisecond`: 10^6 nanoseconds. -/
def timeMillisecond : Nat := 1000000

/-- Model of Go `time.Second`: 10^9 nanoseconds. -/
def timeSecond : Nat := 1000000000

/-- `DefaultConnTimeout = 200 * time.Millisecond` from the source. -/
def DefaultConnTimeout : Nat := 200 * timeMillisecond

/-- `DefaultDrainTimeout = 45 * time.Second` from the source. -/
def DefaultDrainTimeout : Nat := 45 * timeSecond

/-! ## String constants from the source -/

/-- Constant for the header "User-Agent". -/
def UserAgentKey : String := "User-Agent"

/-- Name of the header marking knative networking-layer probes. -/
def ProbeHeaderName : String := "K-Network-Probe"

/-- Required value of the probe marker header. -/
def ProbeHeaderValue : String := "probe"

/-- Name of the header carrying the networking config hash. -/
def HashHeaderName : String := "K-Network-Hash"

/-- User-agent prefix used by Kubernetes probers since K8s 1.8. -/
def KubeProbeUAPrefix : String := "kube-probe/"

/-- Header injected to mark kubelet probes when the user-agent is rewritten. -/
def KubeletProbeHeaderName : String := "K-Kubelet-Probe"

/-! ## Model of `net/http.Header` and `net/textproto` lookup semantics

A Go `http.Header` is a `map[string][]string`.  We model it as an
association list from header name to the list of values; map semantics
(unique keys) make the first-match lookup below agree with map indexing. -/

/-- A header map: association list from header name to its values. -/
abbrev Header := List (String × List String)

/-- Model of `textproto.validHeaderFieldByte`: true for RFC 7230 token bytes.
The token bytes are the ASCII letters and digits together with
the characters with codes 33, 35, 36, 37, 38, 39, 42, 43, 45, 46, 94, 95,
96, 124, 126. -/
def validHeaderFieldByte (c : Char) : Bool :=
  c.toNat < 128 &&
    ((48 ≤ c.toNat && c.toNat ≤ 57) ||
     (65 ≤ c.toNat && c.toNat ≤ 90) ||
     (97 ≤ c.toNat && c.toNat ≤ 122) ||
     [33, 35, 36, 37, 38, 39, 42, 43, 45, 46, 94, 95, 96, 124, 126].contains c.toNat)

/-- The canonicalisation loop of `textproto.canonicalMIMEHeaderKey`:
uppercase a letter at the start or after a dash (code 45), lowercase
every other letter.  The Go code subtracts or adds `toLower = 32`. -/
def canonChars : Bool → List Char → List Char
  | _, [] => []
  | upper, c :: rest =>
      let c2 : Char :=
        if upper && 97 ≤ c.toNat && c.toNat ≤ 122 then Char.ofNat (c.toNat - 32)
        else if !upper && 65 ≤ c.toNat && c.toNat ≤ 90 then Char.ofNat (c.toNat + 32)
        else c
      c2 :: canonChars (c2.toNat == 45) rest

/-- Model of `textproto.CanonicalMIMEHeaderKey`: if every byte is a valid
header-field byte, canonicalise the case; otherwise return the key
unchanged.  (The Go fast path that returns an already-canonical key
unchanged is semantically the identity on such keys, so it is absorbed.) -/
def CanonicalMIMEHeaderKey (s : String) : String :=
  if s.toList.all validHeaderFieldByte then
    String.mk (canonChars true s.toList)
  else s

/-- First-match association lookup, the model of Go map indexing. -/
def Header.lookup : Header → String → Option (List String)
  | [], _ => none
  | (k2, vs) :: rest, k => if k2 == k then some vs else Header.lookup rest k

/-- First element of an optional value list, or the empty string:
the tail of `textproto.MIMEHeader.Get`. -/
def firstValue : Option (List String) → String
  | none => ""
  | some [] => ""
  | some (v :: _) => v

/-- Model of `http.Header.Get` / `textproto.MIMEHeader.Get`: canonicalise
the key, look it up, and return the first value (absent maps to ""). -/
def Header.get (h : Header) (key : String) : String :=
  firstValue (Header.lookup h (CanonicalMIMEHeaderKey key))

/-- Replace the value list of a key, or append a new entry: Go map assignment. -/
def Header.setEntry : Header → String → List String → Header
  | [], k, vs => [(k, vs)]
  | (k2, vs2) :: rest, k, vs =>
      if k2 == k then (k, vs) :: rest else (k2, vs2) :: Header.setEntry rest k vs

/-- Model of `http.Header.Set`: canonicalise the key and store the single value. -/
def Header.set (h : Header) (key value : String) : Header :=
  Header.setEntry h (CanonicalMIMEHeaderKey key) [value]

/-- Model of `http.Header.Del`: canonicalise the key and delete the entry. -/
def Header.del (h : Header) (key : String) : Header :=
  h.filter (fun p => !(p.1 == CanonicalMIMEHeaderKey key))

/-! ## Model of the response writer -/

/-- The observable outcome on an `http.ResponseWriter`: the response
headers, the status code once written, and the accumulated body. -/
structure Response where
  headers : Header
  status : Option Nat
  body : String
deriving Repr, DecidableEq

/-- A fresh response sink: no headers, no status written, empty body. -/
def freshResponse : Response := { headers := [], status := none, body := "" }

/-- Go `http.StatusOK`. -/
def StatusOK : Nat := 200

/-- Go `http.StatusBadRequest`. -/
def StatusBadRequest : Nat := 400

/-- Model of `http.Error(w, error, code)`: delete Content-Length, set
Content-Type to "text/plain; charset=utf-8" and X-Content-Type-Options to
"nosniff", write the status code, then `fmt.Fprintln(w, error)` writes the
message followed by a newline. -/
def httpError (w : Response) (msg : String) (code : Nat) : Response :=
  let h := Header.del w.headers "Content-Length"
  let h := Header.set h "Content-Type" "text/plain; charset=utf-8"
  let h := Header.set h "X-Content-Type-Options" "nosniff"
  { headers := h, status := some code, body := w.body ++ msg ++ "\n" }

/-- Model of Go `fmt.Sprintf` with verb `%q` applied to a string with no
characters needing escapes (such as the header-name constants here):
the string wrapped in double quotes. -/
def goQuote (s : String) : String := "\"" ++ s ++ "\""

/-- Model of Go `strings.HasPrefix(s, pre)`: the characters of `pre` are an
initial segment of the characters of `s`. -/
def hasPrefixChars (s pre : String) : Bool :=
  List.isPrefixOf pre.toList s.toList

/-! ## The three functions of the package, from src/network/network.go -/

/-- `IsKubeletProbe` returns true if the request is a Kubernetes probe:
the User-Agent starts with the kube-probe prefix, or the kubelet-probe
header is non-empty. -/
def IsKubeletProbe (r : Header) : Bool :=
  hasPrefixChars (Header.get r "User-Agent") KubeProbeUAPrefix ||
    Header.get r KubeletProbeHeaderName != ""

/-- `IsKProbe` returns true if the request is a knative probe. -/
def IsKProbe (r : Header) : Bool :=
  Header.get r ProbeHeaderName == ProbeHeaderValue

/-- `ServeKProbe` serves KProbe requests: on an empty hash header respond
400 via `http.Error`, otherwise echo the hash header and respond 200. -/
def ServeKProbe (w : Response) (r : Header) : Response :=
  let hh := Header.get r HashHeaderName
  if hh == "" then
    httpError w
      ("a probe request must contain a non-empty " ++ goQuote HashHeaderName ++ " header")
      StatusBadRequest
  else
    let w1 := { w with headers := Header.set w.headers HashHeaderName hh }
    { w1 with status := some StatusOK }

/-! ## Spec-side formulations (written from the specification's words) -/

/-- Spec wording for `IsInfrastructureProbe`: the User-Agent value begins
with the literal prefix "kube-probe/", or the K-Kubelet-Probe header is
present with a non-empty value. -/
def specIsInfrastructureProbe (r : Header) : Prop :=
  hasPrefixChars (Header.get r UserAgentKey) KubeProbeUAPrefix = true ∨
    Header.get r KubeletProbeHeaderName ≠ ""

/-- Spec wording for `IsRoutingProbe`: the K-Network-Probe header has the
exact value "probe". -/
def specIsRoutingProbe (r : Header) : Prop :=
  Header.get r ProbeHeaderName = "probe"

/-! ## Helper lemmas about the header model -/

lemma lookup_setEntry_self (h : Header) (k : String) (vs : List String) :
    Header.lookup (Header.setEntry h k vs) k = some vs := by
  induction h with
  | nil => simp [Header.setEntry, Header.lookup]
  | cons p rest ih =>
      obtain ⟨k2, vs2⟩ := p
      by_cases hp : (k2 == k) = true
      · simp [Header.setEntry, Header.lookup, hp]
      · simp only [Header.setEntry, hp, if_false, Bool.false_eq_true, ite_false]
        simp only [Header.lookup, hp, Bool.false_eq_true, ite_false, ih]

lemma get_set_self (h : Header) (k v : String) :
    Header.get (Header.set h k v) k = v := by
  simp [Header.get, Header.set, lookup_setEntry_self, firstValue]

lemma get_congr_key (r : Header) (k1 k2 : String)
    (h : CanonicalMIMEHeaderKey k1 = CanonicalMIMEHeaderKey k2) :
    Header.get r k1 = Header.get r k2 := by
  simp only [Header.get, h]

lemma get_single_cons (k v : String) (vs : List String)
    (hk : CanonicalMIMEHeaderKey k = k) :
    Header.get [(k, v :: vs)] k = v := by
  simp [Header.get, Header.lookup, hk, firstValue]

lemma get_single_other (k k2 : String) (vs : List String)
    (h : (k2 == CanonicalMIMEHeaderKey k) = false) :
    Header.get [(k2, vs)] k = "" := by
  simp [Header.get, Header.lookup, h, firstValue]

lemma serveKProbe_congr (w : Response) (r1 r2 : Header)
    (h : Header.get r1 HashHeaderName = Header.get r2 HashHeaderName) :
    ServeKProbe w r1 = ServeKProbe w r2 := by
  simp only [ServeKProbe, h]

/-! ## Claims -/

/-- C1: IsInfrastructureProbe (IsKubeletProbe) returns true if and only if
the User-Agent value begins with the prefix "kube-probe/" or the
K-Kubelet-Probe header is present with a non-empty (first) value; in
particular an empty-string K-Kubelet-Probe value alone yields false. -/
theorem isKubeletProbe_iff_spec (r : Header) :
    (IsKubeletProbe r = true ↔ specIsInfrastructureProbe r) ∧
    IsKubeletProbe [("K-Kubelet-Probe", [""])] = false := by
  refine ⟨?_, by decide⟩
  simp [IsKubeletProbe, specIsInfrastructureProbe, UserAgentKey, bne_iff_ne]

/-- Witness for C1 at a kube-probe user agent. -/
theorem isKubeletProbe_iff_spec_witness :
    IsKubeletProbe [("User-Agent", ["kube-probe/1.27"])] = true :=
  (isKubeletProbe_iff_spec [("User-Agent", ["kube-probe/1.27"])]).1.mpr
    (by simp only [specIsInfrastructureProbe]; exact Or.inl (by decide))

/-- C2: IsRoutingProbe (IsKProbe) returns true iff the K-Network-Probe
header value is exactly "probe"; the values "Probe", "probes", "" and an
absent header all yield false. -/
theorem isKProbe_iff_spec :
    (∀ r : Header, (IsKProbe r = true ↔ specIsRoutingProbe r)) ∧
    IsKProbe [("K-Network-Probe", ["Probe"])] = false ∧
    IsKProbe [("K-Network-Probe", ["probes"])] = false ∧
    IsKProbe [("K-Network-Probe", [""])] = false ∧
    IsKProbe ([] : Header) = false := by
  refine ⟨fun r => ?_, by decide, by decide, by decide, by decide⟩
  simp [IsKProbe, specIsRoutingProbe, ProbeHeaderValue]

/-- Witness for C2 at the exact probe value. -/
theorem isKProbe_iff_spec_witness :
    IsKProbe [("K-Network-Probe", ["probe"])] = true :=
  (isKProbe_iff_spec.1 [("K-Network-Probe", ["probe"])]).mpr
    (by simp only [specIsRoutingProbe]; decide)

/-- C3: on a request whose K-Network-Hash header has a non-empty value,
ServeKProbe on a fresh sink echoes the value into the K-Network-Hash
response header, writes status 200, and writes an empty body. -/
theorem serveKProbe_echoes_hash (r : Header)
    (h : Header.get r HashHeaderName ≠ "") :
    Header.get (ServeKProbe freshResponse r).headers HashHeaderName =
        Header.get r HashHeaderName ∧
    (ServeKProbe freshResponse r).status = some 200 ∧
    (ServeKProbe freshResponse r).body = "" := by
  have hb : (Header.get r HashHeaderName == "") = false := by simp [h]
  refine ⟨?_, ?_, ?_⟩ <;> simp [ServeKProbe, hb, get_set_self, freshResponse, StatusOK]

/-- Witness for C3 at a concrete hash value. -/
theorem serveKProbe_echoes_hash_witness :
    Header.get (ServeKProbe freshResponse [("K-Network-Hash", ["abc123"])]).headers
        HashHeaderName = Header.get [("K-Network-Hash", ["abc123"])] HashHeaderName ∧
    (ServeKProbe freshResponse [("K-Network-Hash", ["abc123"])]).status = some 200 ∧
    (ServeKProbe freshResponse [("K-Network-Hash", ["abc123"])]).body = "" :=
  serveKProbe_echoes_hash [("K-Network-Hash", ["abc123"])] (by decide)

/-- C4 counterexample: on the header-less request ServeKProbe does write
status 400, but the body is not the bare interpolated message: `http.Error`
ends it with a newline (per `fmt.Fprintln`). -/
theorem serveKProbe_missing_hash_cex :
    (ServeKProbe freshResponse ([] : Header)).status = some 400 ∧
    (ServeKProbe freshResponse ([] : Header)).body ≠
      "a probe request must contain a non-empty \"K-Network-Hash\" header" ∧
    (ServeKProbe freshResponse ([] : Header)).body =
      "a probe request must contain a non-empty \"K-Network-Hash\" header\n" := by
  refine ⟨by decide, by decide, by decide⟩

/-- C4 (amended): when the K-Network-Hash header is absent or empty,
ServeKProbe writes status 400 with Content-Type "text/plain; charset=utf-8"
and a body equal to the interpolated message followed by a newline, and
takes no further action. -/
theorem serveKProbe_missing_hash_response (r : Header)
    (h : Header.get r HashHeaderName = "") :
    (ServeKProbe freshResponse r).status = some 400 ∧
    (ServeKProbe freshResponse r).body =
      "a probe request must contain a non-empty \"K-Network-Hash\" header\n" ∧
    Header.get (ServeKProbe freshResponse r).headers "Content-Type" =
      "text/plain; charset=utf-8" := by
  have he : ServeKProbe freshResponse r = ServeKProbe freshResponse ([] : Header) :=
    serveKProbe_congr _ _ _ (by rw [h]; rfl)
  rw [he]
  refine ⟨by decide, by decide, by decide⟩

/-- Witness for C4 (amended) at an explicit empty-valued hash header. -/
theorem serveKProbe_missing_hash_response_witness :
    (ServeKProbe freshResponse [("K-Network-Hash", [""])]).status = some 400 ∧
    (ServeKProbe freshResponse [("K-Network-Hash", [""])]).body =
      "a probe request must contain a non-empty \"K-Network-Hash\" header\n" ∧
    Header.get (ServeKProbe freshResponse [("K-Network-Hash", [""])]).headers
      "Content-Type" = "text/plain; charset=utf-8" :=
  serveKProbe_missing_hash_response [("K-Network-Hash", [""])] (by decide)

/-- C5: the package constants have exactly the literal values of the
wire-level contract: 200 ms connection timeout, 45 s drain timeout, and the
exact header names, probe value and user-agent prefix. -/
theorem constants_exact :
    DefaultConnTimeout = 200 * timeMillisecond ∧ timeMillisecond = 1000000 ∧
    DefaultDrainTimeout = 45 * timeSecond ∧ timeSecond = 1000000000 ∧
    UserAgentKey = "User-Agent" ∧
    ProbeHeaderName = "K-Network-Probe" ∧
    ProbeHeaderValue = "probe" ∧
    HashHeaderName = "K-Network-Hash" ∧
    KubeProbeUAPrefix = "kube-probe/" ∧
    KubeletProbeHeaderName = "K-Kubelet-Probe" :=
  ⟨rfl, rfl, rfl, rfl, rfl, rfl, rfl, rfl, rfl, rfl⟩

/-- C6: ServeKProbe responds 400 iff the hash header is absent or empty; on
that error path the K-Network-Hash response header is never set; and every
run ends in one of the two HTTP statuses (the error is handled locally and
never propagated to the caller). -/
theorem serveKProbe_error_iff (r : Header) :
    ((ServeKProbe freshResponse r).status = some 400 ↔
        Header.get r HashHeaderName = "") ∧
    (Header.get r HashHeaderName = "" →
        Header.lookup (ServeKProbe freshResponse r).headers
          (CanonicalMIMEHeaderKey HashHeaderName) = none) ∧
    ((ServeKProbe freshResponse r).status = some 400 ∨
        (ServeKProbe freshResponse r).status = some 200) := by
  by_cases hc : Header.get r HashHeaderName = ""
  · have he : ServeKProbe freshResponse r = ServeKProbe freshResponse ([] : Header) :=
      serveKProbe_congr _ _ _ (by rw [hc]; rfl)
    rw [he]
    simp only [hc]
    decide
  · have hb : (Header.get r HashHeaderName == "") = false := by simp [hc]
    refine ⟨⟨fun hs => ?_, fun hh => absurd hh hc⟩, fun hh => absurd hh hc, Or.inr ?_⟩
    · simp [ServeKProbe, hb, StatusOK] at hs
    · simp [ServeKProbe, hb, StatusOK]

/-- Witness for C6: on the header-less request the error response carries no
K-Network-Hash header. -/
theorem serveKProbe_error_iff_witness :
    Header.lookup (ServeKProbe freshResponse ([] : Header)).headers
      (CanonicalMIMEHeaderKey HashHeaderName) = none :=
  (serveKProbe_error_iff ([] : Header)).2.1 rfl

/-- C7: ServeKProbe is deterministic in its input: two runs on fresh sinks
with requests agreeing on the K-Network-Hash header (in particular with
identical headers) yield identical outcomes — same status, same response
headers, same body; the function is pure, so no state persists. -/
theorem serveKProbe_deterministic (r1 r2 : Header)
    (h : Header.get r1 HashHeaderName = Header.get r2 HashHeaderName) :
    ServeKProbe freshResponse r1 = ServeKProbe freshResponse r2 :=
  serveKProbe_congr freshResponse r1 r2 h

/-- Witness for C7 at a concrete hash value. -/
theorem serveKProbe_deterministic_witness :
    ServeKProbe freshResponse [("K-Network-Hash", ["rev-42"])] =
      ServeKProbe freshResponse
        [("K-Network-Hash", ["rev-42"]), ("User-Agent", ["curl/8"])] :=
  serveKProbe_deterministic _ _ (by decide)

/-- C8: the two classifiers are total boolean functions: an absent header
reads as the empty string, and each classifier returns a boolean on every
request (they are pure functions of the request in this embedding and do
not mutate it). -/
theorem classifiers_total (r : Header) (k : String) :
    (Header.lookup r (CanonicalMIMEHeaderKey k) = none → Header.get r k = "") ∧
    (IsKubeletProbe r = true ∨ IsKubeletProbe r = false) ∧
    (IsKProbe r = true ∨ IsKProbe r = false) := by
  refine ⟨fun h => ?_, Bool.eq_false_or_eq_true _, Bool.eq_false_or_eq_true _⟩
  simp only [Header.get, h, firstValue]

/-- Witness for C8: an absent header reads as the empty string. -/
theorem classifiers_total_witness :
    Header.get ([] : Header) "X-Custom-Header" = "" :=
  (classifiers_total ([] : Header) "X-Custom-Header").1 rfl

/-- C9: every header lookup consults only the first value of a multi-valued
header: IsKProbe on a single K-Network-Probe entry depends only on the head
value, ["probe", "x"] classifies as a routing probe while ["x", "probe"]
does not, IsKubeletProbe depends only on the head of K-Kubelet-Probe, and
ServeKProbe echoes only the first K-Network-Hash value. -/
theorem first_value_semantics :
    (∀ (v : String) (vs : List String),
        IsKProbe [("K-Network-Probe", v :: vs)] = (v == "probe")) ∧
    IsKProbe [("K-Network-Probe", ["probe", "x"])] = true ∧
    IsKProbe [("K-Network-Probe", ["x", "probe"])] = false ∧
    (∀ (v : String) (vs : List String),
        IsKubeletProbe [("K-Kubelet-Probe", v :: vs)] = (v != "")) ∧
    (∀ (vs : List String),
        Header.get (ServeKProbe freshResponse
          [("K-Network-Hash", "abc123" :: vs)]).headers HashHeaderName = "abc123") := by
  refine ⟨fun v vs => ?_, by decide, by decide, fun v vs => ?_, fun vs => ?_⟩
  · simp only [IsKProbe, ProbeHeaderName, ProbeHeaderValue]
    rw [get_single_cons _ _ _ (by decide)]
  · simp only [IsKubeletProbe, KubeletProbeHeaderName]
    rw [get_single_other _ _ _ (by decide), get_single_cons _ _ _ (by decide)]
    have h1 : hasPrefixChars "" KubeProbeUAPrefix = false := by decide
    rw [h1, Bool.false_or]
  · have hg : Header.get [("K-Network-Hash", "abc123" :: vs)] HashHeaderName = "abc123" := by
      simp only [HashHeaderName]
      exact get_single_cons _ _ _ (by decide)
    have hb : (Header.get [("K-Network-Hash", "abc123" :: vs)] HashHeaderName == "") =
        false := by
      rw [hg]; decide
    simp [ServeKProbe, hb, get_set_self, hg]

/-- C10: header-name matching is case-insensitive: a lookup canonicalises
its key, so queries in any letter case read the same value from a request
whose map stores the canonical key; only the header value comparison is
case-sensitive. -/
theorem header_name_case_insensitive (r : Header) :
    Header.get r "k-network-probe" = Header.get r ProbeHeaderName ∧
    Header.get r "K-NETWORK-PROBE" = Header.get r ProbeHeaderName ∧
    Header.get r "user-agent" = Header.get r UserAgentKey ∧
    Header.get r "K-KUBELET-PROBE" = Header.get r KubeletProbeHeaderName ∧
    Header.get r "k-network-hash" = Header.get r HashHeaderName ∧
    IsKProbe [("K-Network-Probe", ["Probe"])] = false :=
  ⟨get_congr_key r _ _ (by decide), get_congr_key r _ _ (by decide),
   get_congr_key r _ _ (by decide), get_congr_key r _ _ (by decide),
   get_congr_key r _ _ (by decide), by decide⟩

end Network
